import Mathlib

/-!
Verification development for the floor-plan automation repository.

The repository consists of two orchestration scripts,
`floorplan_pipeline.py` and `nerfstudio_automate.py`.  Each defines
`train_and_export_floorplan` (subprocess orchestration: NeRF training,
mesh export, artifact selection by newest modification time) and
`generate_floorplan_from_mesh` (mesh slicing and rasterization to
SVG/PNG).

The embedding models the filesystem and the external tools abstractly:
an environment record supplies the facts the scripts observe (directory
existence, subprocess exit codes, glob results, the planar slice
returned by the mesh library), and each script function is a pure Lean
function from that environment to its boolean result together with the
ordered trace of externally visible actions it performs (directory
creation, subprocess invocation, section request, file writes, drawing
commands, log and error prints).  Machine floats are modelled as
rationals; the Python literal `0.1` becomes `1/10`.  Python exceptions
are modelled in an error monad: the body of
`generate_floorplan_from_mesh` returns `Except`, and the surrounding
`try`/`except` of the source is the `match` that turns an error into
the boolean `false`.  A NumPy elementwise division whose denominator
is zero is NOT an exception: under NumPy's default error state it only
emits a RuntimeWarning and yields non-finite values (NaN/Inf), and
execution continues; since such values have no rational
representation, draw calls whose computed coordinates are non-finite
are recorded by the dedicated action `Act.drawLineNonFinite`.
-/

/-- A file as the scripts observe it: the directory containing it, its
full path, and its modification timestamp (`st_mtime`). -/
structure FsFile where
  parentDir : String
  path : String
  mtime : Nat
deriving DecidableEq

/-- The mtime comparison key used by `sorted(files, key=lambda x: x.stat().st_mtime)`. -/
def mtimeLE (a b : FsFile) : Prop := a.mtime ≤ b.mtime

instance : DecidableRel mtimeLE := fun a b => Nat.decLe a.mtime b.mtime

instance : IsTotal FsFile mtimeLE := ⟨fun a b => Nat.le_total a.mtime b.mtime⟩

instance : IsTrans FsFile mtimeLE := ⟨fun _ _ _ h₁ h₂ => Nat.le_trans h₁ h₂⟩

/-- `sorted(files, key=lambda x: x.stat().st_mtime)[-1]` from both scripts:
Python's `sorted` is a stable sort by the key, and `[-1]` takes the last
element.  `List.insertionSort` is a stable sort, so it has the same
input/output behaviour as Python's `sorted`; `getLast?` is `[-1]`,
returning `none` exactly on the empty list. -/
def selectNewest (files : List FsFile) : Option FsFile :=
  (List.insertionSort mtimeLE files).getLast?

/-- A 2D vertex of the planar slice, with rational coordinates standing
for the machine floats of the source. -/
structure Vec2 where
  x : ℚ
  y : ℚ
deriving DecidableEq

/-- An entity (polyline) of the planar slice: a list of indices into
the slice's vertex array (`entity.points`). -/
structure Entity2D where
  points : List Nat
deriving DecidableEq

/-- The planar slice returned by `slice_2d.to_planar()`: a vertex array
and a list of entities indexing into it. -/
structure Planar where
  vertices : List Vec2
  entities : List Entity2D
deriving DecidableEq

/-- The runtime errors the body of `generate_floorplan_from_mesh` can
raise: failures of the external calls (`trimesh.load`, `mesh.section`,
`to_planar`, `export`, `img.save`) and an out-of-range index in
`vertices[entity.points]`.  A zero denominator in the min-max
normalization is deliberately absent: NumPy's elementwise division by
zero does not raise, it only warns and yields non-finite values. -/
inductive RunError where
  | loadError
  | sectionError
  | toPlanarError
  | svgExportError
  | indexError
  | saveError
deriving DecidableEq

/-- The externally visible actions a script run performs, in order.
`drawLine pts fill width` is a `draw.line` call with finite (rational)
coordinates; `drawLineNonFinite n fill width` is a `draw.line` call
through `n` points at least one of whose computed coordinates is
non-finite (NaN/Inf from a zero-extent axis) — Pillow accepts such
coordinates without raising, and the values have no rational
representation, so only the point count is recorded. -/
inductive Act where
  | mkdir : String → Act
  | runProc : List String → Act
  | printLog : String → Act
  | printErr : String → Act
  | sectionReq : ℚ × ℚ × ℚ → ℚ × ℚ × ℚ → Act
  | newImage : Nat × Nat → String → Act
  | drawLine : List Vec2 → String → Nat → Act
  | drawLineNonFinite : Nat → String → Nat → Act
  | writeFile : String → Act
deriving DecidableEq

/-- The facts `generate_floorplan_from_mesh` observes from its
environment: its two arguments, whether each external call raises,
the minimum-Z bound of the loaded mesh, whether `mesh.section` returns
`None`, and the planar slice produced by `to_planar`. -/
structure GenEnv where
  meshPath : String
  outDir : String
  loadFails : Bool
  boundsMinZ : ℚ
  sectionRaises : Bool
  sectionIsNone : Bool
  toPlanarRaises : Bool
  svgExportRaises : Bool
  planar : Planar
  pngSaveRaises : Bool
deriving DecidableEq

/-- `ndarray.min()` over a list of rationals (the per-axis
`vertices.min(axis=0)`); only ever used on a non-empty list, where the
`[]` default is unreachable. -/
def listMin : List ℚ → ℚ
  | [] => 0
  | [a] => a
  | a :: b :: l => min a (listMin (b :: l))

/-- `ndarray.max()` over a list of rationals (the per-axis
`vertices.max(axis=0)`). -/
def listMax : List ℚ → ℚ
  | [] => 0
  | [a] => a
  | a :: b :: l => max a (listMax (b :: l))

/-- `img_size = 2000` from both sources. -/
def imgSize : Nat := 2000

/-- The per-vertex transform of the source:
`(v - min) / (max - min)` followed by `* (img_size - 100) + 50`. -/
def scalePoint (xmn xmx ymn ymx : ℚ) (v : Vec2) : Vec2 :=
  ⟨(v.x - xmn) / (xmx - xmn) * ((imgSize : ℚ) - 100) + 50,
   (v.y - ymn) / (ymx - ymn) * ((imgSize : ℚ) - 100) + 50⟩

/-- NumPy fancy indexing `vertices[entity.points]`: collects the listed
indices, `none` modelling the `IndexError` raised on an out-of-range
index. -/
def gather (vs : List Vec2) : List Nat → Option (List Vec2)
  | [] => some []
  | i :: is =>
    match vs.get? i with
    | none => none
    | some v =>
      match gather vs is with
      | none => none
      | some rest => some (v :: rest)

/-- The drawing loop of the source: for each entity in order, take its
points from the scaled vertex array and, when there are more than one,
draw a black line of width 5 through them. -/
def drawEntities (scaled : List Vec2) : List Entity2D → Except RunError (List Act)
  | [] => .ok []
  | e :: es =>
    match gather scaled e.points with
    | none => .error .indexError
    | some pts =>
      match drawEntities scaled es with
      | .error err => .error err
      | .ok rest =>
        .ok ((if pts.length > 1 then [Act.drawLine pts "black" 5] else []) ++ rest)

/-- The drawing loop when the scaled vertex array contains non-finite
values: NumPy's division by a zero denominator has produced NaN/Inf on
at least one axis, so every scaled point has a non-finite coordinate.
The loop is otherwise the source's loop unchanged — the same fancy
indexing (an out-of-range index still raises `IndexError`) and the
same `len(points) > 1` guard; the point count equals the index count,
unaffected by the coordinate values, so gathering runs on the unscaled
vertex array, which has the same length. -/
def drawEntitiesNF (vs : List Vec2) : List Entity2D → Except RunError (List Act)
  | [] => .ok []
  | e :: es =>
    match gather vs e.points with
    | none => .error .indexError
    | some pts =>
      match drawEntitiesNF vs es with
      | .error err => .error err
      | .ok rest =>
        .ok ((if pts.length > 1 then [Act.drawLineNonFinite pts.length "black" 5]
          else []) ++ rest)

/-- The rasterization block shared verbatim by both sources:
`vertices = slice_2d.vertices; if len(vertices) > 0:` min-max
normalization, scaling into the canvas, and the entity drawing loop.
When a denominator `max - min` is zero, NumPy's elementwise division
does not raise: it emits a RuntimeWarning and yields non-finite values
(NaN/Inf), execution continues, and the drawing loop runs with those
coordinates (`drawEntitiesNF`); otherwise the coordinates are the
finite rationals of `scalePoint`. -/
def rasterize (p : Planar) : Except RunError (List Act) :=
  match p.vertices with
  | [] => .ok []
  | v0 :: vs =>
    let xmn := listMin ((v0 :: vs).map Vec2.x)
    let xmx := listMax ((v0 :: vs).map Vec2.x)
    let ymn := listMin ((v0 :: vs).map Vec2.y)
    let ymx := listMax ((v0 :: vs).map Vec2.y)
    if xmx - xmn = 0 ∨ ymx - ymn = 0 then drawEntitiesNF (v0 :: vs) p.entities
    else
      let scaled := (v0 :: vs).map (scalePoint xmn xmx ymn ymx)
      drawEntities scaled p.entities

/-- The `try:` body of `generate_floorplan_from_mesh` in
`floorplan_pipeline.py` (lines 126-175). -/
def fpGenBody (env : GenEnv) : Except (RunError × List Act) (Bool × List Act) :=
  let t1 := [Act.printLog "Loading mesh:"]
  if env.loadFails then .error (.loadError, t1) else
  let t2 := t1 ++ [.printLog "Mesh: vertices", .printLog "Bounds:"]
  let sliceHeight := env.boundsMinZ + 1 / 10
  let t3 := t2 ++ [.printLog "Slicing at:",
    .sectionReq (0, 0, sliceHeight) (0, 0, 1)]
  if env.sectionRaises then .error (.sectionError, t3) else
  if env.sectionIsNone then .ok (false, t3 ++ [.printErr "No valid slice!"]) else
  let t4 := t3 ++ [.printLog "Slice created"]
  if env.toPlanarRaises then .error (.toPlanarError, t4) else
  if env.svgExportRaises then .error (.svgExportError, t4) else
  let t5 := t4 ++ [.writeFile (env.outDir ++ "/floorplan.svg"), .printLog "SVG:"]
  let t6 := t5 ++ [.newImage (imgSize, imgSize) "white"]
  match rasterize env.planar with
  | .error e => .error (e, t6)
  | .ok draws =>
    let t7 := t6 ++ draws
    if env.pngSaveRaises then .error (.saveError, t7) else
    .ok (true, t7 ++ [.writeFile (env.outDir ++ "/floorplan.png"), .printLog "PNG:"])

/-- `generate_floorplan_from_mesh` from `floorplan_pipeline.py`:
creates the output directory, runs the `try:` body, and on any raised
exception prints the error with a traceback and returns `False`. -/
def fpGenerate (env : GenEnv) : Bool × List Act :=
  match fpGenBody env with
  | .ok (b, tr) => (b, Act.mkdir env.outDir :: tr)
  | .error (_, tr) => (false, Act.mkdir env.outDir :: (tr ++ [.printErr "Error:"]))

/-- The `try:` body of `generate_floorplan_from_mesh` in
`nerfstudio_automate.py` (lines 108-161); same control flow as
`fpGenBody`, with that file's log strings (bounds printed before the
vertex count, extra advice line on a `None` slice). -/
def nsGenBody (env : GenEnv) : Except (RunError × List Act) (Bool × List Act) :=
  let t1 := [Act.printLog "Loading mesh from:"]
  if env.loadFails then .error (.loadError, t1) else
  let t2 := t1 ++ [.printLog "Mesh bounds:", .printLog "Mesh has vertices"]
  let sliceHeight := env.boundsMinZ + 1 / 10
  let t3 := t2 ++ [.printLog "Slicing at height:",
    .sectionReq (0, 0, sliceHeight) (0, 0, 1)]
  if env.sectionRaises then .error (.sectionError, t3) else
  if env.sectionIsNone then
    .ok (false, t3 ++ [.printErr "No valid slice found at this height!",
      .printLog "Try adjusting the slice height or check if the mesh is valid."]) else
  let t4 := t3 ++ [.printLog "Slice created successfully"]
  if env.toPlanarRaises then .error (.toPlanarError, t4) else
  if env.svgExportRaises then .error (.svgExportError, t4) else
  let t5 := t4 ++ [.writeFile (env.outDir ++ "/floorplan.svg"), .printLog "SVG saved:"]
  let t6 := t5 ++ [.newImage (imgSize, imgSize) "white"]
  match rasterize env.planar with
  | .error e => .error (e, t6)
  | .ok draws =>
    let t7 := t6 ++ draws
    if env.pngSaveRaises then .error (.saveError, t7) else
    .ok (true, t7 ++ [.writeFile (env.outDir ++ "/floorplan.png"), .printLog "PNG saved:"])

/-- `generate_floorplan_from_mesh` from `nerfstudio_automate.py`. -/
def nsGenerate (env : GenEnv) : Bool × List Act :=
  match nsGenBody env with
  | .ok (b, tr) => (b, Act.mkdir env.outDir :: tr)
  | .error (_, tr) =>
    (false, Act.mkdir env.outDir :: (tr ++ [.printErr "Error generating floor plan:"]))

/-- The facts `train_and_export_floorplan` observes from its
environment: its arguments, the existence of the data directory and
the COLMAP sparse path, the exit codes of the two subprocesses, the
glob results for `**/config.yml` and `*.ply`, and the environment of
the nested `generate_floorplan_from_mesh` call. -/
structure PipeEnv where
  dataDir : String
  colmapSparsePath : String
  outputDir : String
  maxIterations : Nat
  dataDirExists : Bool
  colmapPathExists : Bool
  trainExit : Int
  configFiles : List FsFile
  exportExit : Int
  meshFiles : List FsFile
  gen : GenEnv
deriving DecidableEq

/-- The `ns-train` argument list built by both scripts. -/
def trainCmd (env : PipeEnv) : List String :=
  ["ns-train", "nerfacto", "--output-dir", env.outputDir,
   "--max-num-iterations", toString env.maxIterations, "colmap",
   "--data", env.dataDir, "--colmap-path", "colmap/sparse/0"]

/-- The `ns-export` argument list built by both scripts. -/
def exportCmd (configPath exportDir : String) : List String :=
  ["ns-export", "poisson", "--load-config", configPath,
   "--output-dir", exportDir, "--num-points", "1000000",
   "--remove-outliers", "True"]

/-- `train_and_export_floorplan` from `floorplan_pipeline.py`
(lines 14-117): makes the output directory, checks that the data
directory and the COLMAP path exist (returning `False` if not), runs
training, selects the newest `config.yml`, makes the export directory,
runs the export, selects the newest `.ply`, and calls
`generate_floorplan_from_mesh` on it with `output_dir / "floorplan"`. -/
def fpTrainAndExport (env : PipeEnv) : Bool × List Act :=
  let t0 := [Act.mkdir env.outputDir]
  if !env.dataDirExists then
    (false, t0 ++ [.printErr "Data directory not found:"]) else
  if !env.colmapPathExists then
    (false, t0 ++ [.printErr "COLMAP data not found:"]) else
  let t1 := t0 ++ [.runProc (trainCmd env)]
  if env.trainExit ≠ 0 then (false, t1 ++ [.printErr "Training failed!"]) else
  match selectNewest env.configFiles with
  | none => (false, t1 ++ [.printErr "No config.yml found!"])
  | some cfg =>
    let exportDir := cfg.parentDir ++ "/exports/mesh"
    let t2 := t1 ++ [.mkdir exportDir, .runProc (exportCmd cfg.path exportDir)]
    if env.exportExit ≠ 0 then (false, t2 ++ [.printErr "Mesh export failed!"]) else
    match selectNewest env.meshFiles with
    | none => (false, t2 ++ [.printErr "No mesh file found!"])
    | some m =>
      let genv := { env.gen with meshPath := m.path, outDir := env.outputDir ++ "/floorplan" : GenEnv }
      let g := fpGenerate genv
      (g.fst, t2 ++ g.snd)

/-- `train_and_export_floorplan` from `nerfstudio_automate.py`
(lines 7-99): identical orchestration except that it performs no
existence check on the data directory or the COLMAP path before
running the training subprocess. -/
def nsTrainAndExport (env : PipeEnv) : Bool × List Act :=
  let t0 := [Act.mkdir env.outputDir]
  let t1 := t0 ++ [.runProc (trainCmd env)]
  if env.trainExit ≠ 0 then (false, t1 ++ [.printErr "Training failed!"]) else
  match selectNewest env.configFiles with
  | none => (false, t1 ++ [.printErr "No config.yml found! Training may have failed."])
  | some cfg =>
    let exportDir := cfg.parentDir ++ "/exports/mesh"
    let t2 := t1 ++ [.mkdir exportDir, .runProc (exportCmd cfg.path exportDir)]
    if env.exportExit ≠ 0 then (false, t2 ++ [.printErr "Mesh export failed!"]) else
    match selectNewest env.meshFiles with
    | none => (false, t2 ++ [.printErr "No mesh file found!"])
    | some m =>
      let genv := { env.gen with meshPath := m.path, outDir := env.outputDir ++ "/floorplan" : GenEnv }
      let g := nsGenerate genv
      (g.fst, t2 ++ g.snd)

/-- Actions other than log and error prints: directory creation,
subprocess runs, section requests, canvas creation, drawing, file
writes. -/
def isEffect : Act → Bool
  | .printLog _ => false
  | .printErr _ => false
  | _ => true

/-- The effectful part of a trace, prints dropped. -/
def effects (tr : List Act) : List Act := tr.filter isEffect

/-- A benign rasterizer environment: the mesh loads, the section
succeeds, and the planar slice is a single diagonal segment. -/
def sampleGen : GenEnv :=
  { meshPath := "out/run/exports/mesh/mesh.ply"
    outDir := "out/floorplan"
    loadFails := false
    boundsMinZ := 0
    sectionRaises := false
    sectionIsNone := false
    toPlanarRaises := false
    svgExportRaises := false
    planar := { vertices := [⟨0, 0⟩, ⟨1, 1⟩], entities := [⟨[0, 1]⟩] }
    pngSaveRaises := false }

/-- A pipeline environment whose data directory (and COLMAP path) is
missing while everything downstream would succeed. -/
def samplePipe : PipeEnv :=
  { dataDir := "data/room_1"
    colmapSparsePath := "data/room_1/colmap/sparse/0"
    outputDir := "out"
    maxIterations := 10000
    dataDirExists := false
    colmapPathExists := false
    trainExit := 0
    configFiles := [⟨"out/run", "out/run/config.yml", 1⟩]
    exportExit := 0
    meshFiles := [⟨"out/run/exports/mesh", "out/run/exports/mesh/mesh.ply", 1⟩]
    gen := sampleGen }

/-- Whether the `try:` body of the `floorplan_pipeline.py` rasterizer
raises. -/
def fpBodyFails (env : GenEnv) : Bool :=
  match fpGenBody env with
  | .error _ => true
  | .ok _ => false

/-- Whether the `try:` body of the `nerfstudio_automate.py` rasterizer
raises. -/
def nsBodyFails (env : GenEnv) : Bool :=
  match nsGenBody env with
  | .error _ => true
  | .ok _ => false

/-- The scaled vertex array of the source's rasterization block:
min-max normalization of each axis followed by the canvas scaling. -/
def scaledVerts (p : Planar) : List Vec2 :=
  p.vertices.map (scalePoint
    (listMin (p.vertices.map Vec2.x)) (listMax (p.vertices.map Vec2.x))
    (listMin (p.vertices.map Vec2.y)) (listMax (p.vertices.map Vec2.y)))

/-- Whether an action is a cross-section request to the mesh library. -/
def isSectionReq : Act → Bool
  | .sectionReq _ _ => true
  | _ => false

/-- A rasterizer environment identical to `sampleGen` except that the
section comes back `None`. -/
def noneSliceGen : GenEnv := { sampleGen with sectionIsNone := true }

/-- A rasterizer environment whose slice vertices all share X = 2
(zero extent on the X axis). -/
def zeroExtentGen : GenEnv :=
  { sampleGen with planar := { vertices := [⟨2, 0⟩, ⟨2, 5⟩], entities := [⟨[0, 1]⟩] } }

/-- A rasterizer environment where everything succeeds up to the PNG
save, which raises: the SVG has already been written at that point. -/
def pngFailGen : GenEnv := { sampleGen with pngSaveRaises := true }

/-- A rasterizer environment whose planar slice has no vertices and a
single one-point entity. -/
def emptyPlanarGen : GenEnv :=
  { sampleGen with planar := { vertices := [], entities := [⟨[0]⟩] } }

/-! ## Theorems -/

/-- In a list sorted by `mtimeLE`, the last element bounds every member. -/
theorem sorted_getLast_max :
    ∀ {l : List FsFile}, l.Sorted mtimeLE → ∀ f, l.getLast? = some f →
      ∀ g ∈ l, g.mtime ≤ f.mtime := by
  intro l
  induction l with
  | nil => intro _ f hf; simp at hf
  | cons a t ih =>
    intro hs f hf g hg
    cases t with
    | nil =>
      simp at hf hg
      subst hf; subst hg; exact Nat.le_refl _
    | cons b t' =>
      rw [List.getLast?_cons_cons] at hf
      rcases List.pairwise_cons.mp hs with ⟨ha, hs'⟩
      rcases List.mem_cons.mp hg with hga | hgt
      · subst hga
        exact ha f (List.mem_of_mem_getLast? (by rw [hf]; exact rfl))
      · exact ih hs' f hf g hgt

/-- Claim C1: the artifact-selection step (used for `config.yml` under the
output tree and for `*.ply` under the export directory) sorts the
candidate files stably by modification timestamp and takes the last
element; on every non-empty candidate list it returns a member of the
list with the greatest mtime.  On the spec's concrete example
`a.ply (mtime=1), b.ply (mtime=3), c.ply (mtime=2)` it picks `b.ply`,
and on a tie it picks the file that comes last in stable-sorted
(hence original) order. -/
theorem c1_artifact_selection (files : List FsFile) (h : files ≠ []) :
    (∃ f, selectNewest files = some f ∧ f ∈ files ∧
      ∀ g ∈ files, g.mtime ≤ f.mtime) ∧
    selectNewest [⟨"e", "e/a.ply", 1⟩, ⟨"e", "e/b.ply", 3⟩, ⟨"e", "e/c.ply", 2⟩]
      = some ⟨"e", "e/b.ply", 3⟩ ∧
    selectNewest [⟨"e", "e/x.ply", 5⟩, ⟨"e", "e/y.ply", 5⟩]
      = some ⟨"e", "e/y.ply", 5⟩ := by
  refine ⟨?_, by decide, by decide⟩
  have hsorted : (List.insertionSort mtimeLE files).Sorted mtimeLE :=
    List.sorted_insertionSort mtimeLE files
  have hne : List.insertionSort mtimeLE files ≠ [] := by
    intro hnil
    have := List.length_insertionSort mtimeLE files
    rw [hnil] at this
    exact h (List.length_eq_zero.mp this.symm)
  obtain ⟨f, hf⟩ := Option.ne_none_iff_exists'.mp
    (mt List.getLast?_eq_none_iff.mp hne)
  refine ⟨f, hf, ?_, ?_⟩
  · exact (List.mem_insertionSort mtimeLE).mp
      (List.mem_of_mem_getLast? (by rw [hf]; exact rfl))
  · intro g hg
    exact sorted_getLast_max hsorted f hf g
      ((List.mem_insertionSort mtimeLE).mpr hg)

/-- Witness for `c1_artifact_selection` at the spec's concrete three-file list. -/
theorem c1_artifact_selection_witness :
    (∃ f, selectNewest [⟨"e", "e/a.ply", 1⟩, ⟨"e", "e/b.ply", 3⟩, ⟨"e", "e/c.ply", 2⟩]
        = some f ∧
      f ∈ ([⟨"e", "e/a.ply", 1⟩, ⟨"e", "e/b.ply", 3⟩, ⟨"e", "e/c.ply", 2⟩] : List FsFile) ∧
      ∀ g ∈ ([⟨"e", "e/a.ply", 1⟩, ⟨"e", "e/b.ply", 3⟩, ⟨"e", "e/c.ply", 2⟩] : List FsFile),
        g.mtime ≤ f.mtime) :=
  (c1_artifact_selection
    [⟨"e", "e/a.ply", 1⟩, ⟨"e", "e/b.ply", 3⟩, ⟨"e", "e/c.ply", 2⟩]
    (by decide)).1

/-- `listMin` bounds every member from below. -/
theorem listMin_le : ∀ {l : List ℚ}, ∀ x ∈ l, listMin l ≤ x := by
  intro l
  induction l with
  | nil => intro x hx; cases hx
  | cons a t ih =>
    intro x hx
    cases t with
    | nil =>
      rcases List.mem_cons.mp hx with h | h
      · subst h; exact le_refl _
      · cases h
    | cons b t' =>
      rcases List.mem_cons.mp hx with h | h
      · subst h; exact min_le_left _ _
      · exact le_trans (min_le_right _ _) (ih x h)

/-- `listMax` bounds every member from above. -/
theorem le_listMax : ∀ {l : List ℚ}, ∀ x ∈ l, x ≤ listMax l := by
  intro l
  induction l with
  | nil => intro x hx; cases hx
  | cons a t ih =>
    intro x hx
    cases t with
    | nil =>
      rcases List.mem_cons.mp hx with h | h
      · subst h; exact le_refl _
      · cases h
    | cons b t' =>
      rcases List.mem_cons.mp hx with h | h
      · subst h; exact le_max_left _ _
      · exact le_trans (ih x h) (le_max_right _ _)

/-- On a non-empty constant list, `listMin` is that constant. -/
theorem listMin_all_eq {c : ℚ} :
    ∀ {l : List ℚ}, l ≠ [] → (∀ x ∈ l, x = c) → listMin l = c := by
  intro l
  induction l with
  | nil => intro h; cases h rfl
  | cons a t ih =>
    intro _ hall
    cases t with
    | nil => exact hall a (by simp)
    | cons b t' =>
      have ha : a = c := hall a (by simp)
      have ht : listMin (b :: t') = c :=
        ih (by simp) (fun x hx => hall x (List.mem_cons_of_mem a hx))
      show min a (listMin (b :: t')) = c
      rw [ha, ht, min_self]

/-- On a non-empty constant list, `listMax` is that constant. -/
theorem listMax_all_eq {c : ℚ} :
    ∀ {l : List ℚ}, l ≠ [] → (∀ x ∈ l, x = c) → listMax l = c := by
  intro l
  induction l with
  | nil => intro h; cases h rfl
  | cons a t ih =>
    intro _ hall
    cases t with
    | nil => exact hall a (by simp)
    | cons b t' =>
      have ha : a = c := hall a (by simp)
      have ht : listMax (b :: t') = c :=
        ih (by simp) (fun x hx => hall x (List.mem_cons_of_mem a hx))
      show max a (listMax (b :: t')) = c
      rw [ha, ht, max_self]

/-- Every point produced by `gather` comes from the vertex array. -/
theorem gather_mem {vs : List Vec2} :
    ∀ {idxs : List Nat} {pts : List Vec2}, gather vs idxs = some pts →
      ∀ q ∈ pts, q ∈ vs := by
  intro idxs
  induction idxs with
  | nil =>
    intro pts h q hq
    simp [gather] at h
    subst h; cases hq
  | cons i is ih =>
    intro pts h q hq
    unfold gather at h
    cases hv : vs.get? i with
    | none => rw [hv] at h; cases h
    | some v =>
      rw [hv] at h
      cases hg : gather vs is with
      | none => rw [hg] at h; cases h
      | some rest =>
        rw [hg] at h
        injection h with h
        subst h
        rcases List.mem_cons.mp hq with h | h
        · subst h; exact List.get?_mem hv
        · exact ih hg q h

/-- `drawEntities` succeeds exactly when every entity's indices are in
range, and then its output is: one black width-5 line per entity with
more than one point, entities with fewer points skipped. -/
theorem drawEntities_ok_eq {scaled : List Vec2} :
    ∀ {es : List Entity2D} {acts : List Act}, drawEntities scaled es = .ok acts →
      acts = es.filterMap (fun e => (gather scaled e.points).bind (fun pts =>
        if pts.length > 1 then some (Act.drawLine pts "black" 5) else none)) := by
  intro es
  induction es with
  | nil => intro acts h; simp [drawEntities] at h; simp [h.symm]
  | cons e es' ih =>
    intro acts h
    unfold drawEntities at h
    cases hg : gather scaled e.points with
    | none => rw [hg] at h; cases h
    | some pts =>
      rw [hg] at h
      cases hr : drawEntities scaled es' with
      | error err => rw [hr] at h; cases h
      | ok rest =>
        rw [hr] at h
        injection h with h
        subst h
        rw [List.filterMap_cons, hg]
        by_cases hl : pts.length > 1
        · simp [hl, ih hr]
        · simp [hl, ih hr]

/-- Every action emitted by `drawEntities` is a black width-5 line with
more than one point, all points from the scaled vertex array. -/
theorem drawEntities_mem {scaled : List Vec2} {es : List Entity2D} {acts : List Act}
    (h : drawEntities scaled es = .ok acts) :
    ∀ a ∈ acts, ∃ pts, a = Act.drawLine pts "black" 5 ∧ 1 < pts.length ∧
      ∀ q ∈ pts, q ∈ scaled := by
  intro a ha
  rw [drawEntities_ok_eq h] at ha
  rcases List.mem_filterMap.mp ha with ⟨e, _, he⟩
  cases hg : gather scaled e.points with
  | none => rw [hg] at he; cases he
  | some pts =>
    rw [hg] at he
    by_cases hl : pts.length > 1
    · simp [hl] at he
      exact ⟨pts, he.symm, hl, fun q hq => gather_mem hg q hq⟩
    · simp [hl] at he

/-- `gather` succeeds on in-range indices and returns one point per
index. -/
theorem gather_total {vs : List Vec2} :
    ∀ {idxs : List Nat}, (∀ i ∈ idxs, i < vs.length) →
      ∃ pts, gather vs idxs = some pts ∧ pts.length = idxs.length := by
  intro idxs
  induction idxs with
  | nil => intro _; exact ⟨[], rfl, rfl⟩
  | cons i is ih =>
    intro h
    have hv : vs.get? i = some (vs.get ⟨i, h i (List.mem_cons_self i is)⟩) :=
      List.get?_eq_get (h i (List.mem_cons_self i is))
    obtain ⟨pts, hpts, hlen⟩ := ih (fun j hj => h j (List.mem_cons_of_mem _ hj))
    refine ⟨vs.get ⟨i, h i (List.mem_cons_self i is)⟩ :: pts, ?_, by simp [hlen]⟩
    unfold gather
    rw [hv, hpts]

/-- Characterization of the non-finite drawing loop: one recorded
non-finite draw call per entity with more than one point, entities with
fewer points skipped. -/
theorem drawEntitiesNF_ok_eq {vs : List Vec2} :
    ∀ {es : List Entity2D} {acts : List Act}, drawEntitiesNF vs es = .ok acts →
      acts = es.filterMap (fun e => (gather vs e.points).bind (fun pts =>
        if pts.length > 1 then some (Act.drawLineNonFinite pts.length "black" 5)
        else none)) := by
  intro es
  induction es with
  | nil => intro acts h; simp [drawEntitiesNF] at h; simp [h.symm]
  | cons e es' ih =>
    intro acts h
    unfold drawEntitiesNF at h
    cases hg : gather vs e.points with
    | none => rw [hg] at h; cases h
    | some pts =>
      rw [hg] at h
      cases hr : drawEntitiesNF vs es' with
      | error err => rw [hr] at h; cases h
      | ok rest =>
        rw [hr] at h
        injection h with h
        subst h
        rw [List.filterMap_cons, hg]
        by_cases hl : pts.length > 1
        · simp [hl, ih hr]
        · simp [hl, ih hr]

/-- Every action emitted by the non-finite drawing loop is a black
width-5 non-finite draw call through more than one point. -/
theorem drawEntitiesNF_mem {vs : List Vec2} {es : List Entity2D} {acts : List Act}
    (h : drawEntitiesNF vs es = .ok acts) :
    ∀ a ∈ acts, ∃ n, a = Act.drawLineNonFinite n "black" 5 ∧ 1 < n := by
  intro a ha
  rw [drawEntitiesNF_ok_eq h] at ha
  rcases List.mem_filterMap.mp ha with ⟨e, _, he⟩
  cases hg : gather vs e.points with
  | none => rw [hg] at he; cases he
  | some pts =>
    rw [hg] at he
    by_cases hl : pts.length > 1
    · simp [hl] at he
      exact ⟨pts.length, he.symm, hl⟩
    · simp [hl] at he

/-- When every entity's indices are in range, the non-finite drawing
loop does not raise. -/
theorem drawEntitiesNF_total {vs : List Vec2} :
    ∀ {es : List Entity2D}, (∀ e ∈ es, ∀ i ∈ e.points, i < vs.length) →
      ∃ acts, drawEntitiesNF vs es = .ok acts := by
  intro es
  induction es with
  | nil => intro _; exact ⟨[], rfl⟩
  | cons e es' ih =>
    intro h
    obtain ⟨pts, hg, -⟩ := gather_total (fun i hi => h e (List.mem_cons_self e es') i hi)
    obtain ⟨rest, hrest⟩ := ih (fun e' he' => h e' (List.mem_cons_of_mem _ he'))
    refine ⟨(if pts.length > 1 then [Act.drawLineNonFinite pts.length "black" 5]
      else []) ++ rest, ?_⟩
    unfold drawEntitiesNF
    rw [hg, hrest]

/-- Every action of a successful rasterization is a draw call — either
with finite coordinates or recorded as non-finite. -/
theorem rasterize_ok_draw_only {p : Planar} {acts : List Act}
    (h : rasterize p = .ok acts) :
    ∀ a ∈ acts, (∃ pts, a = Act.drawLine pts "black" 5) ∨
      (∃ n, a = Act.drawLineNonFinite n "black" 5) := by
  intro a ha
  unfold rasterize at h
  cases hv : p.vertices with
  | nil => rw [hv] at h; simp at h; subst h; cases ha
  | cons v0 vs =>
    rw [hv] at h
    by_cases hz : listMax ((v0 :: vs).map Vec2.x) - listMin ((v0 :: vs).map Vec2.x) = 0 ∨
        listMax ((v0 :: vs).map Vec2.y) - listMin ((v0 :: vs).map Vec2.y) = 0
    · simp only [hz, if_true] at h
      rcases drawEntitiesNF_mem h a ha with ⟨n, hn, -⟩
      exact Or.inr ⟨n, hn⟩
    · simp only [hz, if_false] at h
      rcases drawEntities_mem h a ha with ⟨pts, hpts, -, -⟩
      exact Or.inl ⟨pts, hpts⟩

/-- With strictly positive extent on both axes, a successful
rasterization emits only black width-5 polylines with more than one
point, every point taken from the scaled vertex array. -/
theorem rasterize_ok_mem {p : Planar} {acts : List Act}
    (hdx : listMin (p.vertices.map Vec2.x) < listMax (p.vertices.map Vec2.x))
    (hdy : listMin (p.vertices.map Vec2.y) < listMax (p.vertices.map Vec2.y))
    (h : rasterize p = .ok acts) :
    ∀ a ∈ acts, ∃ pts, a = Act.drawLine pts "black" 5 ∧ 1 < pts.length ∧
      ∀ q ∈ pts, q ∈ scaledVerts p := by
  intro a ha
  unfold rasterize at h
  cases hv : p.vertices with
  | nil => rw [hv] at h; simp at h; subst h; cases ha
  | cons v0 vs =>
    rw [hv] at h
    rw [hv] at hdx hdy
    by_cases hz : listMax ((v0 :: vs).map Vec2.x) - listMin ((v0 :: vs).map Vec2.x) = 0 ∨
        listMax ((v0 :: vs).map Vec2.y) - listMin ((v0 :: vs).map Vec2.y) = 0
    · exfalso
      rcases hz with hz | hz
      · exact sub_ne_zero_of_ne (ne_of_gt hdx) hz
      · exact sub_ne_zero_of_ne (ne_of_gt hdy) hz
    · simp only [hz, if_false] at h
      have := drawEntities_mem h a ha
      rcases this with ⟨pts, hpts, hlen, hmem⟩
      refine ⟨pts, hpts, hlen, fun q hq => ?_⟩
      have := hmem q hq
      unfold scaledVerts
      rw [hv]
      exact this

/-- The per-vertex transform keeps both coordinates inside the margin
band whenever the vertex lies between the axis bounds and both extents
are strictly positive. -/
theorem scalePoint_bounds {xmn xmx ymn ymx : ℚ} {v : Vec2}
    (hx1 : xmn ≤ v.x) (hx2 : v.x ≤ xmx) (hdx : xmn < xmx)
    (hy1 : ymn ≤ v.y) (hy2 : v.y ≤ ymx) (hdy : ymn < ymx) :
    50 ≤ (scalePoint xmn xmx ymn ymx v).x ∧
    (scalePoint xmn xmx ymn ymx v).x ≤ (imgSize : ℚ) - 50 ∧
    50 ≤ (scalePoint xmn xmx ymn ymx v).y ∧
    (scalePoint xmn xmx ymn ymx v).y ≤ (imgSize : ℚ) - 50 := by
  have hdx' : (0:ℚ) < xmx - xmn := sub_pos.mpr hdx
  have hdy' : (0:ℚ) < ymx - ymn := sub_pos.mpr hdy
  have htx0 : (0:ℚ) ≤ (v.x - xmn) / (xmx - xmn) :=
    div_nonneg (sub_nonneg.mpr hx1) hdx'.le
  have htx1 : (v.x - xmn) / (xmx - xmn) ≤ 1 :=
    (div_le_one hdx').mpr (sub_le_sub_right hx2 xmn)
  have hty0 : (0:ℚ) ≤ (v.y - ymn) / (ymx - ymn) :=
    div_nonneg (sub_nonneg.mpr hy1) hdy'.le
  have hty1 : (v.y - ymn) / (ymx - ymn) ≤ 1 :=
    (div_le_one hdy').mpr (sub_le_sub_right hy2 ymn)
  refine ⟨?_, ?_, ?_, ?_⟩ <;>
    simp only [scalePoint, imgSize] <;> push_cast <;>
    nlinarith [htx0, htx1, hty0, hty1]

/-- Claim C4: when the mesh loads and `mesh.section` returns `None`
(empty cross-section at the computed height), both
`generate_floorplan_from_mesh` variants return `False`, write neither
the SVG nor the PNG, and request exactly one section (no retry at a
different height). -/
theorem c4_empty_section_fails (env : GenEnv)
    (h1 : env.loadFails = false) (h2 : env.sectionRaises = false)
    (h3 : env.sectionIsNone = true) :
    (fpGenerate env).fst = false ∧ (nsGenerate env).fst = false ∧
    (∀ p, Act.writeFile p ∉ (fpGenerate env).snd) ∧
    (∀ p, Act.writeFile p ∉ (nsGenerate env).snd) ∧
    (fpGenerate env).snd.countP isSectionReq = 1 ∧
    (nsGenerate env).snd.countP isSectionReq = 1 := by
  refine ⟨?_, ?_, ?_, ?_, ?_, ?_⟩ <;>
    simp [fpGenerate, nsGenerate, fpGenBody, nsGenBody, h1, h2, h3,
      List.countP_cons, isSectionReq]

/-- Witness for `c4_empty_section_fails` at `noneSliceGen`. -/
theorem c4_empty_section_fails_witness :
    (fpGenerate noneSliceGen).fst = false ∧ (nsGenerate noneSliceGen).fst = false ∧
    (∀ p, Act.writeFile p ∉ (fpGenerate noneSliceGen).snd) ∧
    (∀ p, Act.writeFile p ∉ (nsGenerate noneSliceGen).snd) ∧
    (fpGenerate noneSliceGen).snd.countP isSectionReq = 1 ∧
    (nsGenerate noneSliceGen).snd.countP isSectionReq = 1 :=
  c4_empty_section_fails noneSliceGen rfl rfl rfl

/-- Claim C5: whenever the mesh loads, both variants request exactly
the horizontal plane with origin `(0, 0, minZ + 0.1)` and normal
`(0, 0, 1)`, and every section request they make is that one (the
offset is the fixed rational `1/10`, with no unit normalization). -/
theorem c5_slice_plane (env : GenEnv) (h : env.loadFails = false) :
    (Act.sectionReq (0, 0, env.boundsMinZ + 1 / 10) (0, 0, 1) ∈ (fpGenerate env).snd ∧
     Act.sectionReq (0, 0, env.boundsMinZ + 1 / 10) (0, 0, 1) ∈ (nsGenerate env).snd) ∧
    (∀ o n, Act.sectionReq o n ∈ (fpGenerate env).snd →
      o = (0, 0, env.boundsMinZ + 1 / 10) ∧ n = (0, 0, 1)) ∧
    (∀ o n, Act.sectionReq o n ∈ (nsGenerate env).snd →
      o = (0, 0, env.boundsMinZ + 1 / 10) ∧ n = (0, 0, 1)) := by
  have hno : ∀ acts, rasterize env.planar = .ok acts →
      ∀ o n, Act.sectionReq o n ∉ acts := by
    intro acts hra o n hmem
    rcases rasterize_ok_draw_only hra _ hmem with ⟨pts, hpts⟩ | ⟨m, hm⟩
    · cases hpts
    · cases hm
  cases h2 : env.sectionRaises <;> cases h3 : env.sectionIsNone <;>
    cases h4 : env.toPlanarRaises <;> cases h5 : env.svgExportRaises <;>
    cases h6 : env.pngSaveRaises <;> cases hr : rasterize env.planar <;>
    refine ⟨⟨?_, ?_⟩, ?_, ?_⟩ <;>
    first
      | simp [fpGenerate, nsGenerate, fpGenBody, nsGenBody, h, h2, h3, h4, h5, h6,
          hr, hno _ hr]
      | simp [fpGenerate, nsGenerate, fpGenBody, nsGenBody, h, h2, h3, h4, h5, h6, hr]

/-- Witness for `c5_slice_plane` at `sampleGen`. -/
theorem c5_slice_plane_witness :
    Act.sectionReq (0, 0, sampleGen.boundsMinZ + 1 / 10) (0, 0, 1)
      ∈ (fpGenerate sampleGen).snd ∧
    Act.sectionReq (0, 0, sampleGen.boundsMinZ + 1 / 10) (0, 0, 1)
      ∈ (nsGenerate sampleGen).snd :=
  (c5_slice_plane sampleGen rfl).1

set_option maxRecDepth 100000 in
/-- Counterexample to claim C3 as stated: on a slice whose vertices all
share X = 2 (zero extent on the X axis), no runtime arithmetic error is
raised and no failure surfaces — the body completes normally, both
variants return `True`, and the PNG is saved; the line is drawn via a
`draw.line` call with non-finite coordinates. -/
theorem c3_counterexample :
    fpBodyFails zeroExtentGen = false ∧ nsBodyFails zeroExtentGen = false ∧
    (fpGenerate zeroExtentGen).fst = true ∧ (nsGenerate zeroExtentGen).fst = true ∧
    Act.writeFile (zeroExtentGen.outDir ++ "/floorplan.png")
      ∈ (fpGenerate zeroExtentGen).snd ∧
    Act.drawLineNonFinite 2 "black" 5 ∈ (fpGenerate zeroExtentGen).snd := by
  with_unfolding_all decide

/-- Claim C3 (amended): on a slice whose vertices all share the same X
coordinate (zero extent on that axis, all entity indices in range), the
min-max normalization does divide by a zero denominator, but NumPy
raises no arithmetic error — it only warns and yields non-finite
values, execution continues, the entities are still drawn (as black
width-5 lines with non-finite coordinates), the SVG and the PNG are
both written, and `generate_floorplan_from_mesh` returns `True`; the
caller is not crashed. -/
theorem c3_zero_extent_division (env : GenEnv) (c : ℚ)
    (h1 : env.loadFails = false) (h2 : env.sectionRaises = false)
    (h3 : env.sectionIsNone = false) (h4 : env.toPlanarRaises = false)
    (h5 : env.svgExportRaises = false) (h6 : env.pngSaveRaises = false)
    (hne : env.planar.vertices ≠ [])
    (hx : ∀ v ∈ env.planar.vertices, v.x = c)
    (hidx : ∀ e ∈ env.planar.entities, ∀ i ∈ e.points,
      i < env.planar.vertices.length) :
    listMax (env.planar.vertices.map Vec2.x)
      - listMin (env.planar.vertices.map Vec2.x) = 0 ∧
    fpBodyFails env = false ∧ nsBodyFails env = false ∧
    (∃ acts, rasterize env.planar = .ok acts ∧
      ∀ a ∈ acts, ∃ n, a = Act.drawLineNonFinite n "black" 5 ∧ 1 < n) ∧
    (fpGenerate env).fst = true ∧ (nsGenerate env).fst = true ∧
    Act.writeFile (env.outDir ++ "/floorplan.svg") ∈ (fpGenerate env).snd ∧
    Act.writeFile (env.outDir ++ "/floorplan.png") ∈ (fpGenerate env).snd := by
  have hallx : ∀ x ∈ env.planar.vertices.map Vec2.x, x = c := by
    intro x hxm
    rcases List.mem_map.mp hxm with ⟨v, hv', hvx⟩
    rw [← hvx]
    exact hx v hv'
  have hmapne : env.planar.vertices.map Vec2.x ≠ [] := by
    intro hmapnil
    exact hne (List.map_eq_nil_iff.mp hmapnil)
  have hmin : listMin (env.planar.vertices.map Vec2.x) = c :=
    listMin_all_eq hmapne hallx
  have hmax : listMax (env.planar.vertices.map Vec2.x) = c :=
    listMax_all_eq hmapne hallx
  have hzero : listMax (env.planar.vertices.map Vec2.x)
      - listMin (env.planar.vertices.map Vec2.x) = 0 := by
    rw [hmin, hmax, sub_self]
  obtain ⟨acts, hacts⟩ : ∃ acts, rasterize env.planar = .ok acts := by
    cases hv : env.planar.vertices with
    | nil => exact absurd hv hne
    | cons v0 vs =>
      obtain ⟨acts, hacts⟩ :=
        @drawEntitiesNF_total (v0 :: vs) env.planar.entities
          (fun e he i hi => hv ▸ hidx e he i hi)
      refine ⟨acts, ?_⟩
      unfold rasterize
      rw [hv]
      rw [hv] at hzero
      have hcond : listMax (List.map Vec2.x (v0 :: vs))
            - listMin (List.map Vec2.x (v0 :: vs)) = 0 ∨
          listMax (List.map Vec2.y (v0 :: vs))
            - listMin (List.map Vec2.y (v0 :: vs)) = 0 := Or.inl hzero
      simp only [hcond, if_true]
      exact hacts
  have hshape : ∀ a ∈ acts, ∃ n, a = Act.drawLineNonFinite n "black" 5 ∧ 1 < n := by
    have hacts' := hacts
    unfold rasterize at hacts'
    cases hv : env.planar.vertices with
    | nil => rw [hv] at hacts'; simp at hacts'; subst hacts'; intro a ha; cases ha
    | cons v0 vs =>
      rw [hv] at hacts'
      rw [hv] at hzero
      have hcond : listMax (List.map Vec2.x (v0 :: vs))
            - listMin (List.map Vec2.x (v0 :: vs)) = 0 ∨
          listMax (List.map Vec2.y (v0 :: vs))
            - listMin (List.map Vec2.y (v0 :: vs)) = 0 := Or.inl hzero
      simp only [hcond, if_true] at hacts'
      exact drawEntitiesNF_mem hacts'
  refine ⟨hzero, ?_, ?_, ⟨acts, hacts, hshape⟩, ?_, ?_, ?_, ?_⟩ <;>
    simp [fpBodyFails, nsBodyFails, fpGenerate, nsGenerate, fpGenBody, nsGenBody,
      h1, h2, h3, h4, h5, h6, hacts]

/-- Witness for `c3_zero_extent_division` at `zeroExtentGen`. -/
theorem c3_zero_extent_division_witness :
    listMax (zeroExtentGen.planar.vertices.map Vec2.x)
      - listMin (zeroExtentGen.planar.vertices.map Vec2.x) = 0 ∧
    fpBodyFails zeroExtentGen = false ∧ nsBodyFails zeroExtentGen = false ∧
    (∃ acts, rasterize zeroExtentGen.planar = .ok acts ∧
      ∀ a ∈ acts, ∃ n, a = Act.drawLineNonFinite n "black" 5 ∧ 1 < n) ∧
    (fpGenerate zeroExtentGen).fst = true ∧ (nsGenerate zeroExtentGen).fst = true ∧
    Act.writeFile (zeroExtentGen.outDir ++ "/floorplan.svg")
      ∈ (fpGenerate zeroExtentGen).snd ∧
    Act.writeFile (zeroExtentGen.outDir ++ "/floorplan.png")
      ∈ (fpGenerate zeroExtentGen).snd :=
  c3_zero_extent_division zeroExtentGen 2 rfl rfl rfl rfl rfl rfl
    (by decide) (by decide) (by decide)

/-- Claim C7: any exception raised inside the rasterization body of
`generate_floorplan_from_mesh` (load, section, planar projection, SVG
export, drawing, PNG save) is caught by the `except` clause and the
function returns `False` instead of propagating it; every action
already performed before the failure — including partial outputs such
as an SVG written before a later error — remains in the trace, with no
cleanup. -/
theorem c7_exception_caught (env : GenEnv)
    (hfp : fpBodyFails env = true) (hns : nsBodyFails env = true) :
    (fpGenerate env).fst = false ∧ (nsGenerate env).fst = false ∧
    (∀ e tr, fpGenBody env = .error (e, tr) → ∀ a ∈ tr, a ∈ (fpGenerate env).snd) ∧
    (∀ e tr, nsGenBody env = .error (e, tr) → ∀ a ∈ tr, a ∈ (nsGenerate env).snd) := by
  refine ⟨?_, ?_, ?_, ?_⟩
  · cases h : fpGenBody env with
    | ok p => rw [fpBodyFails, h] at hfp; cases hfp
    | error p => rcases p with ⟨e, tr⟩; simp [fpGenerate, h]
  · cases h : nsGenBody env with
    | ok p => rw [nsBodyFails, h] at hns; cases hns
    | error p => rcases p with ⟨e, tr⟩; simp [nsGenerate, h]
  · intro e tr h a ha
    simp [fpGenerate, h]
    exact Or.inr (Or.inl ha)
  · intro e tr h a ha
    simp [nsGenerate, h]
    exact Or.inr (Or.inl ha)

set_option maxRecDepth 100000 in
/-- Witness for `c7_exception_caught` at `pngFailGen`. -/
theorem c7_exception_caught_witness :
    (fpGenerate pngFailGen).fst = false ∧ (nsGenerate pngFailGen).fst = false ∧
    (∀ e tr, fpGenBody pngFailGen = .error (e, tr) →
      ∀ a ∈ tr, a ∈ (fpGenerate pngFailGen).snd) ∧
    (∀ e tr, nsGenBody pngFailGen = .error (e, tr) →
      ∀ a ∈ tr, a ∈ (nsGenerate pngFailGen).snd) :=
  c7_exception_caught pngFailGen (by with_unfolding_all decide)
    (by with_unfolding_all decide)

/-- Claim C6: for a slice with strictly positive extent on both axes,
the transform (min-max normalization then canvas scaling) maps every
scaled vertex coordinate into `[50, imgSize - 50]` = `[50, 1950]` of a
canvas that is exactly `imgSize × imgSize` = `2000 × 2000` pixels, the
canvas is white, and every entity drawn is a black width-5 connected
polyline through scaled vertices. -/
theorem c6_raster_transform (p : Planar)
    (hne : p.vertices ≠ [])
    (hdx : listMin (p.vertices.map Vec2.x) < listMax (p.vertices.map Vec2.x))
    (hdy : listMin (p.vertices.map Vec2.y) < listMax (p.vertices.map Vec2.y)) :
    imgSize = 2000 ∧
    (∀ w ∈ scaledVerts p,
      50 ≤ w.x ∧ w.x ≤ (imgSize : ℚ) - 50 ∧ 50 ≤ w.y ∧ w.y ≤ (imgSize : ℚ) - 50) ∧
    (∀ acts, rasterize p = .ok acts → ∀ a ∈ acts,
      ∃ pts, a = Act.drawLine pts "black" 5 ∧ 1 < pts.length ∧
        ∀ q ∈ pts, 50 ≤ q.x ∧ q.x ≤ (imgSize : ℚ) - 50 ∧
          50 ≤ q.y ∧ q.y ≤ (imgSize : ℚ) - 50) ∧
    (∀ env : GenEnv, env.planar = p → env.loadFails = false →
      env.sectionRaises = false → env.sectionIsNone = false →
      env.toPlanarRaises = false → env.svgExportRaises = false →
      Act.newImage (imgSize, imgSize) "white" ∈ (fpGenerate env).snd ∧
      Act.newImage (imgSize, imgSize) "white" ∈ (nsGenerate env).snd) := by
  have hbounds : ∀ w ∈ scaledVerts p,
      50 ≤ w.x ∧ w.x ≤ (imgSize : ℚ) - 50 ∧ 50 ≤ w.y ∧ w.y ≤ (imgSize : ℚ) - 50 := by
    intro w hw
    rcases List.mem_map.mp hw with ⟨v, hv, hvw⟩
    subst hvw
    exact scalePoint_bounds
      (listMin_le _ (List.mem_map_of_mem Vec2.x hv))
      (le_listMax _ (List.mem_map_of_mem Vec2.x hv)) hdx
      (listMin_le _ (List.mem_map_of_mem Vec2.y hv))
      (le_listMax _ (List.mem_map_of_mem Vec2.y hv)) hdy
  refine ⟨rfl, hbounds, ?_, ?_⟩
  · intro acts hr a ha
    rcases rasterize_ok_mem hdx hdy hr a ha with ⟨pts, hpts, hlen, hmem⟩
    exact ⟨pts, hpts, hlen, fun q hq => hbounds q (hmem q hq)⟩
  · intro env hp h1 h2 h3 h4 h5
    constructor <;>
      cases h6 : env.pngSaveRaises <;> cases hr : rasterize env.planar <;>
      simp [fpGenerate, nsGenerate, fpGenBody, nsGenBody, h1, h2, h3, h4, h5, h6, hr]

set_option maxRecDepth 100000 in
/-- Witness for `c6_raster_transform` at `sampleGen`'s planar slice. -/
theorem c6_raster_transform_witness :
    imgSize = 2000 ∧
    ∀ w ∈ scaledVerts sampleGen.planar,
      50 ≤ w.x ∧ w.x ≤ (imgSize : ℚ) - 50 ∧ 50 ≤ w.y ∧ w.y ≤ (imgSize : ℚ) - 50 :=
  have h := c6_raster_transform sampleGen.planar (by with_unfolding_all decide)
    (by with_unfolding_all decide) (by with_unfolding_all decide)
  ⟨h.1, h.2.1⟩

/-- Claim C8: with an empty slice vertex list the rasterizer skips all
drawing but still creates the white `imgSize × imgSize` canvas, saves
the PNG, and returns `True`; and in the drawing loop an entity whose
point list has fewer than 2 points contributes no line while an entity
with 2 or more points contributes exactly its black width-5 line. -/
theorem c8_empty_vertices_and_short_entities (env : GenEnv)
    (h1 : env.loadFails = false) (h2 : env.sectionRaises = false)
    (h3 : env.sectionIsNone = false) (h4 : env.toPlanarRaises = false)
    (h5 : env.svgExportRaises = false) (h6 : env.pngSaveRaises = false) :
    (env.planar.vertices = [] →
      (fpGenerate env).fst = true ∧ (nsGenerate env).fst = true ∧
      Act.newImage (imgSize, imgSize) "white" ∈ (fpGenerate env).snd ∧
      Act.writeFile (env.outDir ++ "/floorplan.png") ∈ (fpGenerate env).snd ∧
      (∀ pts c w, Act.drawLine pts c w ∉ (fpGenerate env).snd) ∧
      (∀ pts c w, Act.drawLine pts c w ∉ (nsGenerate env).snd)) ∧
    (∀ scaled acts, drawEntities scaled env.planar.entities = .ok acts →
      acts = env.planar.entities.filterMap (fun e =>
        (gather scaled e.points).bind (fun pts =>
          if pts.length > 1 then some (Act.drawLine pts "black" 5) else none))) := by
  constructor
  · intro hv
    have hr : rasterize env.planar = .ok [] := by
      unfold rasterize
      rw [hv]
    refine ⟨?_, ?_, ?_, ?_, ?_, ?_⟩ <;>
      simp [fpGenerate, nsGenerate, fpGenBody, nsGenBody, h1, h2, h3, h4, h5, h6, hr]
  · intro scaled acts h
    exact drawEntities_ok_eq h

/-- Witness for `c8_empty_vertices_and_short_entities` at `emptyPlanarGen`. -/
theorem c8_empty_vertices_and_short_entities_witness :
    (fpGenerate emptyPlanarGen).fst = true ∧ (nsGenerate emptyPlanarGen).fst = true ∧
    Act.newImage (imgSize, imgSize) "white" ∈ (fpGenerate emptyPlanarGen).snd ∧
    Act.writeFile (emptyPlanarGen.outDir ++ "/floorplan.png")
      ∈ (fpGenerate emptyPlanarGen).snd ∧
    (∀ pts c w, Act.drawLine pts c w ∉ (fpGenerate emptyPlanarGen).snd) ∧
    (∀ pts c w, Act.drawLine pts c w ∉ (nsGenerate emptyPlanarGen).snd) :=
  (c8_empty_vertices_and_short_entities emptyPlanarGen rfl rfl rfl rfl rfl rfl).1 rfl

/-- Claim C9 (amended): the two `generate_floorplan_from_mesh`
functions are behaviorally equivalent — for every environment they
return the same boolean and perform the same effectful actions
(directory creation, section requests, file writes, canvas, drawing),
differing only in logging text.  The surrounding
`train_and_export_floorplan` pipelines, however, differ beyond minor
defaults: see the counterexample, where only `floorplan_pipeline.py`
validates its inputs. -/
theorem c9_generate_equivalent (env : GenEnv) :
    (fpGenerate env).fst = (nsGenerate env).fst ∧
    effects (fpGenerate env).snd = effects (nsGenerate env).snd := by
  cases h1 : env.loadFails <;> cases h2 : env.sectionRaises <;>
    cases h3 : env.sectionIsNone <;> cases h4 : env.toPlanarRaises <;>
    cases h5 : env.svgExportRaises <;> cases h6 : env.pngSaveRaises <;>
    cases hr : rasterize env.planar <;>
    constructor <;>
    simp [fpGenerate, nsGenerate, fpGenBody, nsGenBody, effects, isEffect,
      h1, h2, h3, h4, h5, h6, hr, List.filter_append]

set_option maxRecDepth 100000 in
/-- Counterexample to claim C9 as stated: the two scripts do not
implement the same pipeline with divergent minor defaults only — on an
environment whose data directory is missing (everything downstream
succeeding), `floorplan_pipeline.py` returns `False` while
`nerfstudio_automate.py` runs the full pipeline and returns `True`. -/
theorem c9_counterexample :
    (fpTrainAndExport samplePipe).fst = false ∧
    (nsTrainAndExport samplePipe).fst = true := by
  with_unfolding_all decide

/-- On a missing data directory or COLMAP path, the
`floorplan_pipeline.py` pipeline stops at the corresponding check with
exactly the directory creation and one error report in its trace. -/
theorem fpTrain_missing_input (env : PipeEnv)
    (h : env.dataDirExists = false ∨ env.colmapPathExists = false) :
    fpTrainAndExport env =
      (false, [Act.mkdir env.outputDir, Act.printErr "Data directory not found:"]) ∨
    fpTrainAndExport env =
      (false, [Act.mkdir env.outputDir, Act.printErr "COLMAP data not found:"]) := by
  cases hd : env.dataDirExists with
  | false => left; simp [fpTrainAndExport, hd]
  | true =>
    have hc : env.colmapPathExists = false := by
      rcases h with h | h
      · rw [hd] at h; cases h
      · exact h
    right
    simp [fpTrainAndExport, hd, hc]

/-- Claim C2 (amended): in `floorplan_pipeline.py`, a missing data
directory or COLMAP sparse path makes `train_and_export_floorplan`
report the missing input and return `False` before any subprocess is
run; `nerfstudio_automate.py` performs no such validation (see the
counterexample). -/
theorem c2_missing_input_aborts (env : PipeEnv)
    (h : env.dataDirExists = false ∨ env.colmapPathExists = false) :
    (fpTrainAndExport env).fst = false ∧
    (∀ cmd, Act.runProc cmd ∉ (fpTrainAndExport env).snd) ∧
    (∃ msg, Act.printErr msg ∈ (fpTrainAndExport env).snd) := by
  rcases fpTrain_missing_input env h with he | he <;> rw [he]
  · exact ⟨rfl, by intro cmd hmem; simp at hmem,
      ⟨"Data directory not found:", by simp⟩⟩
  · exact ⟨rfl, by intro cmd hmem; simp at hmem,
      ⟨"COLMAP data not found:", by simp⟩⟩

set_option maxRecDepth 100000 in
/-- Counterexample to claim C2 as stated: in `nerfstudio_automate.py`
the pipeline does not abort on a missing data directory — on
`samplePipe` (data directory and COLMAP path both absent) it runs the
training subprocess and completes with `True`, reporting nothing. -/
theorem c2_counterexample :
    samplePipe.dataDirExists = false ∧ samplePipe.colmapPathExists = false ∧
    Act.runProc (trainCmd samplePipe) ∈ (nsTrainAndExport samplePipe).snd ∧
    (nsTrainAndExport samplePipe).fst = true := by
  with_unfolding_all decide

/-- Witness for `c2_missing_input_aborts` at `samplePipe`. -/
theorem c2_missing_input_aborts_witness :
    (fpTrainAndExport samplePipe).fst = false ∧
    (∀ cmd, Act.runProc cmd ∉ (fpTrainAndExport samplePipe).snd) ∧
    (∃ msg, Act.printErr msg ∈ (fpTrainAndExport samplePipe).snd) :=
  c2_missing_input_aborts samplePipe (Or.inl rfl)

/-- Claim C10: `train_and_export_floorplan` creates the output
directory (parents, pre-existence tolerated) before the input-existence
checks, so even a run that returns `False` for a missing input has
already created the output directory; and both
`generate_floorplan_from_mesh` variants create the floorplan output
directory as their very first action, before the `try:` block that can
fail. -/
theorem c10_mkdir_before_checks (env : PipeEnv) (genv : GenEnv)
    (h : env.dataDirExists = false ∨ env.colmapPathExists = false) :
    (fpTrainAndExport env).fst = false ∧
    Act.mkdir env.outputDir ∈ (fpTrainAndExport env).snd ∧
    (fpGenerate genv).snd.head? = some (Act.mkdir genv.outDir) ∧
    (nsGenerate genv).snd.head? = some (Act.mkdir genv.outDir) := by
  refine ⟨?_, ?_, ?_, ?_⟩
  · rcases fpTrain_missing_input env h with he | he <;> rw [he]
  · rcases fpTrain_missing_input env h with he | he <;> rw [he] <;> simp
  · cases hb : fpGenBody genv with
    | ok p => rcases p with ⟨b, tr⟩; simp [fpGenerate, hb]
    | error p => rcases p with ⟨e, tr⟩; simp [fpGenerate, hb]
  · cases hb : nsGenBody genv with
    | ok p => rcases p with ⟨b, tr⟩; simp [nsGenerate, hb]
    | error p => rcases p with ⟨e, tr⟩; simp [nsGenerate, hb]

/-- Witness for `c10_mkdir_before_checks` at `samplePipe` and `sampleGen`. -/
theorem c10_mkdir_before_checks_witness :
    (fpTrainAndExport samplePipe).fst = false ∧
    Act.mkdir samplePipe.outputDir ∈ (fpTrainAndExport samplePipe).snd ∧
    (fpGenerate sampleGen).snd.head? = some (Act.mkdir sampleGen.outDir) ∧
    (nsGenerate sampleGen).snd.head? = some (Act.mkdir sampleGen.outDir) :=
  c10_mkdir_before_checks samplePipe sampleGen (Or.inl rfl)
